import Mathlib

/-!
Verification development for the AutoFliff repository.

The definitions below are a shallow embedding of the Python sources
`fliff_automator.py`, `main.py`, `github_api_manager.py` and
`telegram_notifier.py`.  Displayed page text is modelled as `List Char`,
Python floats over the inputs of interest as `ℚ`, and fallible Python
code as `Except`/`Option` values.  Interactions with the live page
(payout readings, HTTP responses, balances) are oracles passed in as
explicit parameters, since the code only observes them through the
browser-control interface.
-/

namespace AutoFliff

/-! ### Numeric text parsing (Python `float` on plain decimal literals) -/

/-- Value of a list of decimal digit characters, most significant first.
Models what Python's `float` computes on an all-digit string. -/
def digitsVal (l : List Char) : ℕ :=
  l.foldl (fun n c => n * 10 + (c.toNat - 48)) 0

/-- Models Python `float(s)` on plain unsigned decimal literals
(`"150"`, `"2.5"`, `"1."`, `".5"`).  Returns `none` where `float` raises
`ValueError` (empty string, stray characters).  Exponent and sign forms
never occur after the sign has been split off an odds text and are not
modelled. -/
def parseFloatQ (l : List Char) : Option ℚ :=
  let ip := l.takeWhile Char.isDigit
  let rest := l.drop ip.length
  match rest with
  | [] => if ip.isEmpty then none else some (digitsVal ip)
  | '.' :: fp =>
      if fp.all Char.isDigit && !(ip.isEmpty && fp.isEmpty) then
        some ((digitsVal ip : ℚ) + (digitsVal fp : ℚ) / 10 ^ fp.length)
      else none
  | _ => none

/-! ### `FliffAutomator._convert_odds_to_decimal` (fliff_automator.py 271-280) -/

/-- Embedding of `FliffAutomator._convert_odds_to_decimal`.  The input is
the stripped odds text.  `none` models a raised exception: `ValueError`
from `float`, or `ZeroDivisionError` for `"-0"`. -/
def convert_odds_to_decimal (l : List Char) : Option ℚ :=
  match l with
  | '+' :: rest => (parseFloatQ rest).map (fun v => (v + 100) / 100)
  | '-' :: rest =>
      match parseFloatQ rest with
      | none => none
      | some v => if v = 0 then none else some ((100 + v) / v)
  | _ => parseFloatQ l

/-! ### `FliffAutomator.execute_betting_strategy` (fliff_automator.py 206-269)

A game is the list of odds texts of its unlocked proposals; the sports
page is a list of games.  The running slip payout read back after the
k-th click is `payout k`. -/

/-- Per-game proposal scan of `execute_betting_strategy` (lines 223-238).
Each proposal's odds text is converted; the proposal is appended to the
safe list when `-250 <= odds_decimal <= 200` (the code compares the
DECIMAL multiplier against these bounds).  A conversion exception aborts
the remaining proposals of this game only (`except ... continue`),
keeping the proposals already appended. -/
def processGame : List (List Char) → List (List Char × ℚ)
  | [] => []
  | p :: rest =>
      match convert_odds_to_decimal p with
      | none => []
      | some d =>
          (if -250 ≤ d ∧ d ≤ 200 then [(p, d)] else []) ++ processGame rest

/-- The `safe_games` list built by the nested loop over games
(lines 222-238), in discovery order. -/
def safeGames : List (List (List Char)) → List (List Char × ℚ)
  | [] => []
  | g :: rest => processGame g ++ safeGames rest

/-- The parlay accumulation loop (lines 245-267).  State: remaining
candidates, `current_payout`, number of legs already added.  Returns the
final `return` value, the final `current_payout`, and the legs added by
the remaining iterations (`parlay_selections`).  `payout (n+1)` is the
slip payout the page reports after the (n+1)-th click
(`_get_current_payout`). -/
def parlayLoop {α : Type} (payout : ℕ → ℚ) (min_payout max_payout : ℚ) :
    List α → ℚ → ℕ → Bool × ℚ × List α
  | [], cur, _ => (decide (min_payout ≤ cur), cur, [])
  | p :: rest, cur, n =>
      if max_payout ≤ cur then (decide (min_payout ≤ cur), cur, [])
      else if min_payout ≤ payout (n + 1) ∧ payout (n + 1) ≤ max_payout then
        (true, payout (n + 1), [p])
      else
        ((parlayLoop payout min_payout max_payout rest (payout (n + 1)) (n + 1)).1,
         (parlayLoop payout min_payout max_payout rest (payout (n + 1)) (n + 1)).2.1,
         p :: (parlayLoop payout min_payout max_payout rest (payout (n + 1)) (n + 1)).2.2)

/-- Embedding of `execute_betting_strategy(min_payout, max_payout)`:
empty game list returns `False` (line 219); empty safe list returns
`False` (line 242); otherwise the accumulation loop runs with
`current_payout = 1.0`. -/
def execute_betting_strategy (games : List (List (List Char))) (payout : ℕ → ℚ)
    (min_payout max_payout : ℚ) : Bool :=
  if games.isEmpty then false
  else if (safeGames games).isEmpty then false
  else (parlayLoop payout min_payout max_payout (safeGames games) 1 0).1

/-! ### `FliffAutomator._retry_operation` (fliff_automator.py 69-79)

The wrapped unit of work is modelled as `operation : ℕ → Except ε α`
giving the outcome of its i-th invocation (0-indexed).  The embedding
returns the value produced by `_retry_operation` (`none` models the
implicit `None` return when `max_retries = 0`, `some (.error e)` models
the re-raise of `e` by the bare `raise`), together with the number of
calls made and the list of back-off sleeps performed. -/

/-- The `for attempt in range(max_retries)` loop, at attempt index `i`
with `rem` iterations remaining (`rem = max_retries - i`).  `rem = 0`
after a failure corresponds to `attempt == max_retries - 1`, where the
bare `raise` re-raises the caught error unchanged; otherwise the loop
sleeps `delay * (2 ** attempt)` and retries. -/
def retryAttempts {ε α : Type} (operation : ℕ → Except ε α) (delay : ℕ) :
    ℕ → ℕ → Option (Except ε α) × ℕ × List ℕ
  | _, 0 => (none, 0, [])
  | i, rem + 1 =>
      match operation i with
      | .ok a => (some (.ok a), 1, [])
      | .error e =>
          if rem = 0 then (some (.error e), 1, [])
          else
            ((retryAttempts operation delay (i + 1) rem).1,
             (retryAttempts operation delay (i + 1) rem).2.1 + 1,
             delay * 2 ^ i :: (retryAttempts operation delay (i + 1) rem).2.2)

/-- Embedding of `_retry_operation(operation, max_retries, delay, ...)`.
The source defaults are `max_retries = 3`, `delay = 2`. -/
def retry_operation {ε α : Type} (operation : ℕ → Except ε α)
    (max_retries delay : ℕ) : Option (Except ε α) × ℕ × List ℕ :=
  retryAttempts operation delay 0 max_retries

/-! ### `FliffAutomator.check_open_wagers` (fliff_automator.py 141-171) -/

/-- The character class of the regex `[\d,]+`. -/
def isDigitComma (c : Char) : Bool := c.isDigit || c = ','

/-- Leftmost maximal run of characters satisfying `p`; models
`re.search` with a `[...]+` pattern. -/
def firstRun (p : Char → Bool) : List Char → Option (List Char)
  | [] => none
  | c :: rest => if p c then some (c :: rest.takeWhile p) else firstRun p rest

/-- Test `startsWithList needle hay`: holds when `needle` is an initial
segment of `hay`. -/
def startsWithList : List Char → List Char → Bool
  | [], _ => true
  | _ :: _, [] => false
  | a :: as, b :: bs => decide (a = b) && startsWithList as bs

/-- Test `subList needle hay`: Python's `needle in hay` substring test. -/
def subList (needle : List Char) : List Char → Bool
  | [] => needle.isEmpty
  | c :: rest => startsWithList needle (c :: rest) || subList needle rest

/-- Python `str.lower()` on the characters of interest. -/
def toLowerList (l : List Char) : List Char := l.map Char.toLower

/-- Per-slip work of `check_open_wagers` (lines 157-166): if the slip's
text contains `"payout"` (case-insensitively), search `[\d,]+`, strip
commas and parse.  `.error ()` models the `ValueError` that
`float('')` raises when the matched run is all commas; `.ok none` means
the slip contributes nothing; `.ok (some v)` is the parsed payout. -/
def slipPayoutValue (text : List Char) : Except Unit (Option ℚ) :=
  if subList "payout".data (toLowerList text) then
    match firstRun isDigitComma text with
    | none => .ok none
    | some run =>
        match run.filter (fun c => c ≠ ',') with
        | [] => .error ()
        | ds => .ok (some ((digitsVal ds : ℚ)))
  else .ok none

/-- Embedding of `check_open_wagers`, over the list of text contents of
the `.bet-slip` elements.  Empty list returns `False` (line 154); the
first slip whose parsed payout exceeds `1.80` returns `True`
(line 164-166). -/
def check_open_wagers : List (List Char) → Except Unit Bool
  | [] => .ok false
  | s :: rest =>
      match slipPayoutValue s with
      | .error e => .error e
      | .ok none => check_open_wagers rest
      | .ok (some v) => if 9 / 5 < v then .ok true else check_open_wagers rest

/-- A slip that `check_open_wagers` treats as blocking: its text
contains payout text and the value the code parses from it exceeds
`1.80`. -/
def slipBlocking (text : List Char) : Bool :=
  match slipPayoutValue text with
  | .ok (some v) => decide ((9 : ℚ) / 5 < v)
  | _ => false

/-! ### Configuration environment (conftest keys; read via `os.getenv`) -/

/-- The environment variables the repository reads.  Geolocation values
are carried already parsed (the claims do not concern malformed float
text in those two variables). -/
structure Env where
  fliff_username : Option String
  fliff_password : Option String
  geolocation_latitude : Option ℚ
  geolocation_longitude : Option ℚ
  github_token : Option String
  github_repository : Option String
  telegram_bot_token : Option String
  telegram_chat_id : Option String

/-- Python truthiness test `not value` for an optional string: `None`
and `""` are falsy. -/
def pyFalsy : Option String → Bool
  | none => true
  | some t => decide (t = "")

/-- An environment with every variable absent. -/
def emptyEnv : Env :=
  { fliff_username := none, fliff_password := none,
    geolocation_latitude := none, geolocation_longitude := none,
    github_token := none, github_repository := none,
    telegram_bot_token := none, telegram_chat_id := none }

/-! ### `GitHubAPIManager` (github_api_manager.py) -/

structure GitHubAPIManager where
  github_token : String
  github_repository : String
  workflow_filename : String

/-- Embedding of `GitHubAPIManager.__init__` (lines 11-19): reads
`GITHUB_TOKEN` and `GITHUB_REPOSITORY` and raises `ValueError` with a
descriptive message when either is falsy. -/
def GitHubAPIManager.init (env : Env) : Except String GitHubAPIManager :=
  if pyFalsy env.github_token then
    .error "GITHUB_TOKEN environment variable is required"
  else if pyFalsy env.github_repository then
    .error "GITHUB_REPOSITORY environment variable is required"
  else
    .ok { github_token := env.github_token.getD "",
          github_repository := env.github_repository.getD "",
          workflow_filename := "main.yml" }

/-- A workflow record of the GitHub workflows listing (fields the code
reads: `path` and `id`). -/
structure Workflow where
  path : String
  id : ℕ
deriving DecidableEq

/-- The outcomes of the two HTTP calls `disable_workflow` performs:
the GET of the workflow listing (after `raise_for_status`; `.error`
models a raised `RequestException` or bad-status response) and the PUT
disabling a workflow id. -/
structure GitHubWorld where
  listWorkflows : Except Unit (List Workflow)
  disableCall : ℕ → Except Unit Unit

/-- The workflow-path match of `disable_workflow` (line 44), with
`workflow_filename = 'main.yml'`. -/
def isTargetWorkflow (w : Workflow) : Bool :=
  decide (w.path = ".github/workflows/main.yml")

/-- Embedding of `GitHubAPIManager.disable_workflow` (lines 21-67).  The
entire body is wrapped in `try/except` clauses that convert any raised
`RequestException` or other `Exception` into `False`, which this total
function mirrors; the first workflow whose path matches is used
(`break`). -/
def disable_workflow (world : GitHubWorld) : Bool :=
  match world.listWorkflows with
  | .error _ => false
  | .ok wfs =>
      match wfs.find? isTargetWorkflow with
      | none => false
      | some wf =>
          match world.disableCall wf.id with
          | .error _ => false
          | .ok _ => true

/-! ### `TelegramNotifier` (telegram_notifier.py) -/

structure TelegramNotifier where
  bot_token : String
  chat_id : String

/-- Embedding of `TelegramNotifier.__init__` (lines 13-22): reads
`TELEGRAM_BOT_TOKEN` and `TELEGRAM_CHAT_ID` and raises `ValueError`
with a descriptive message when either is falsy. -/
def TelegramNotifier.init (env : Env) : Except String TelegramNotifier :=
  if pyFalsy env.telegram_bot_token then
    .error "TELEGRAM_BOT_TOKEN environment variable is required"
  else if pyFalsy env.telegram_chat_id then
    .error "TELEGRAM_CHAT_ID environment variable is required"
  else
    .ok { bot_token := env.telegram_bot_token.getD "",
          chat_id := env.telegram_chat_id.getD "" }

/-! ### `FliffAutomator.__init__` and `login` (fliff_automator.py 14-36, 81-115) -/

structure FliffAutomator where
  base_url : String
  latitude : ℚ
  longitude : ℚ

/-- Embedding of `FliffAutomator.__init__`: it validates nothing and
cannot raise for absent environment values (geolocation has defaults
`40.7128` / `-74.0060`; the login credentials are not read here at
all).  The result type matches the other two constructors to make the
absence of any `ValueError` path explicit. -/
def FliffAutomator.init (env : Env) : Except String FliffAutomator :=
  .ok { base_url := "https://fliff.com",
        latitude := env.geolocation_latitude.getD (40.7128 : ℚ),
        longitude := env.geolocation_longitude.getD (-74.0060 : ℚ) }

/-- The values the two `page.fill` calls of `login` (lines 96-97) send:
`os.getenv('FLIFF_USERNAME')` and `os.getenv('FLIFF_PASSWORD')`, read
from the environment at the point of use inside the operation. -/
def loginFillValues (env : Env) : List (Option String) :=
  [env.fliff_username, env.fliff_password]

/-! ### `FliffBotOrchestrator.run` (main.py 23-134)

The orchestrator's observable actions are traced as `Event`s.  The
attribute names that `class FliffAutomator` actually defines, and the
parameter names of `TelegramNotifier.send_bet_confirmation`, are listed
from the sources so that Python's attribute lookup and keyword-argument
binding can be evaluated where `run` performs them. -/

/-- A raised Python exception, as far as `run`'s paths distinguish it. -/
inductive PyErr where
  | attributeError (obj attr : String)
  | typeErrorUnexpectedKwarg (fn kwarg : String)
deriving DecidableEq

/-- Observable actions of one `FliffBotOrchestrator.run` invocation. -/
inductive Event where
  | statusStarted
  | loginEv
  | getBalanceEv
  | successNotification (balance : ℚ)
  | disableWorkflowEv
  | claimRewardsEv
  | checkWagersEv
  | statusInsufficient (balance : ℚ)
  | strategyEv (min_payout max_payout : ℚ)
  | betScreenshotEv (path : String)
  | betConfirmationEv (wager payout : ℚ) (path : String)
  | statusNoParlay
  | errorScreenshotEv (path : String)
  | errorNotificationEv (err : PyErr) (path : String)
  | closeEv
  | removeFileEv (path : String)
deriving DecidableEq

/-- Oracle results of the automator calls `run` makes, plus the
filesystem state the cleanup consults. -/
structure RunWorld where
  balance1 : ℚ
  balanceAfterRewards : ℚ
  balance2 : ℚ
  openWagers : Bool
  strategyResult : Bool
  currentPayout : ℚ
  betScreenshotPath : String
  errScreenshotPath : String
  fileExists : String → Bool

/-- Constant `goal_balance` of `FliffBotOrchestrator` (main.py line 27). -/
def goal_balance : ℚ := 10

/-- Constant `min_bet_threshold` of `FliffBotOrchestrator` (line 28), `1.80`. -/
def min_bet_threshold : ℚ := 9 / 5

/-- Constant `min_payout_threshold` of `FliffBotOrchestrator` (line 29). -/
def min_payout_threshold : ℚ := 50

/-- Constant `max_payout_threshold` of `FliffBotOrchestrator` (line 30). -/
def max_payout_threshold : ℚ := 100

/-- The attribute names defined on `class FliffAutomator`
(fliff_automator.py): the instance attributes set in `__init__` and the
methods of the class body. -/
def fliffAutomatorAttrs : List String :=
  ["browser", "context", "page", "base_url", "latitude", "longitude",
   "selectors", "_setup_browser", "_retry_operation", "login",
   "get_balance", "check_open_wagers", "check_and_claim_rewards",
   "execute_betting_strategy", "_convert_odds_to_decimal",
   "_get_current_payout", "place_bet", "take_bet_screenshot",
   "take_error_screenshot", "close"]

/-- The parameter names of `TelegramNotifier.send_bet_confirmation`
(telegram_notifier.py line 106). -/
def sendBetConfirmationParams : List String :=
  ["wager_amount", "potential_payout", "screenshot_path"]

/-- The keyword-argument names `run` passes in its
`send_bet_confirmation` call (main.py lines 103-107). -/
def betConfirmationKwargs : List String :=
  ["wager_amount", "potential_potential_payout", "screenshot_path"]

/-- The `bet_placed` branch of `run` (main.py lines 93-107): screenshot,
final balance read, then `self.automator.get_current_payout()` — an
attribute lookup on the `FliffAutomator` instance — and finally the
`send_bet_confirmation` call with the keyword arguments listed above.
Returns the events performed, the raised exception if any, and the
value of the `screenshot_path` local. -/
def betBranch (w : RunWorld) : List Event × Option PyErr × Option String :=
  if fliffAutomatorAttrs.contains "get_current_payout" then
    if betConfirmationKwargs.all (fun k => sendBetConfirmationParams.contains k) then
      ([Event.betScreenshotEv w.betScreenshotPath, Event.getBalanceEv,
        Event.betConfirmationEv w.balance2 w.currentPayout w.betScreenshotPath],
       none, some w.betScreenshotPath)
    else
      ([Event.betScreenshotEv w.betScreenshotPath, Event.getBalanceEv],
       some (PyErr.typeErrorUnexpectedKwarg "send_bet_confirmation" "potential_potential_payout"),
       some w.betScreenshotPath)
  else
    ([Event.betScreenshotEv w.betScreenshotPath, Event.getBalanceEv],
     some (PyErr.attributeError "FliffAutomator" "get_current_payout"),
     some w.betScreenshotPath)

/-- Action Phase 2 of `run` (main.py lines 86-113), entered with the
current value of the `balance` local. -/
def phase2 (w : RunWorld) (balance : ℚ) : List Event × Option PyErr × Option String :=
  if min_bet_threshold ≤ balance ∧ w.openWagers = false then
    if w.strategyResult then
      ((Event.strategyEv min_payout_threshold max_payout_threshold) :: (betBranch w).1,
       (betBranch w).2.1, (betBranch w).2.2)
    else
      ([Event.strategyEv min_payout_threshold max_payout_threshold, Event.statusNoParlay],
       none, none)
  else ([], none, none)

/-- The `try` block of `run` (main.py lines 43-115). -/
def tryBlock (w : RunWorld) : List Event × Option PyErr × Option String :=
  if goal_balance ≤ w.balance1 then
    ([Event.statusStarted, Event.loginEv, Event.getBalanceEv,
      Event.successNotification w.balance1, Event.disableWorkflowEv], none, none)
  else if w.balance1 < min_bet_threshold ∧ w.openWagers = false then
    if w.balanceAfterRewards < min_bet_threshold then
      ([Event.statusStarted, Event.loginEv, Event.getBalanceEv, Event.checkWagersEv,
        Event.claimRewardsEv, Event.getBalanceEv,
        Event.statusInsufficient w.balanceAfterRewards], none, none)
    else
      ([Event.statusStarted, Event.loginEv, Event.getBalanceEv, Event.checkWagersEv,
        Event.claimRewardsEv, Event.getBalanceEv] ++ (phase2 w w.balanceAfterRewards).1,
       (phase2 w w.balanceAfterRewards).2.1, (phase2 w w.balanceAfterRewards).2.2)
  else
    ([Event.statusStarted, Event.loginEv, Event.getBalanceEv, Event.checkWagersEv]
       ++ (phase2 w w.balance1).1,
     (phase2 w w.balance1).2.1, (phase2 w w.balance1).2.2)

/-- Embedding of `FliffBotOrchestrator.run`: the `try` block, then the
`except` handler (error screenshot + error notification, lines 117-120,
which also overwrites the `screenshot_path` local), then the `finally`
cleanup (close, and removal of the screenshot file when the path is
non-empty and the file exists, lines 122-134). -/
def orchestratorRun (w : RunWorld) : List Event :=
  let t := tryBlock w
  let afterHandler :=
    match t.2.1 with
    | none => (t.1, t.2.2)
    | some e =>
        (t.1 ++ [Event.errorScreenshotEv w.errScreenshotPath,
                 Event.errorNotificationEv e w.errScreenshotPath],
         some w.errScreenshotPath)
  afterHandler.1 ++
    (Event.closeEv ::
      (match afterHandler.2 with
       | some p => if p ≠ "" ∧ w.fileExists p = true then [Event.removeFileEv p] else []
       | none => []))

/-- End-to-end scenario 3 of the spec (and of the e2e test
`test_run_balance_sufficient_for_betting`): balance `5.00` before and
after, no blocking wagers, the strategy reports a placed bet, slip
payout `75.00`. -/
def scenario3 : RunWorld :=
  { balance1 := 5, balanceAfterRewards := 5, balance2 := 5,
    openWagers := false, strategyResult := true, currentPayout := 75,
    betScreenshotPath := "screenshots/bet_slip_1.png",
    errScreenshotPath := "screenshots/error_1.png",
    fileExists := fun _ => true }

/-! ## Helper lemmas -/

lemma convert_odds_pos (s : List Char) (q : ℚ) (h : parseFloatQ s = some q) :
    convert_odds_to_decimal ('+' :: s) = some ((q + 100) / 100) := by
  simp [convert_odds_to_decimal, h]

lemma convert_odds_neg (s : List Char) (q : ℚ) (h : parseFloatQ s = some q)
    (hq : q ≠ 0) :
    convert_odds_to_decimal ('-' :: s) = some ((100 + q) / q) := by
  simp [convert_odds_to_decimal, h, hq]

lemma convert_odds_other (c : Char) (s : List Char) (h1 : c ≠ '+') (h2 : c ≠ '-') :
    convert_odds_to_decimal (c :: s) = parseFloatQ (c :: s) := by
  rw [convert_odds_to_decimal.eq_def]
  split
  · next heq => cases heq; exact absurd rfl h1
  · next heq => cases heq; exact absurd rfl h2
  · rfl

/-! ## Claim theorems -/

/-- Claim C5: the odds conversion maps `+o` to `(o+100)/100`, `-o`
(with nonzero magnitude, where the code does not raise) to `(100+o)/o`,
and bare numeric text to its own value, with the spec's examples
`+150 → 2.5`, `+100 → 2.0`, `+200 → 3.0`, `-200 → 1.5`, `-250 → 1.4`,
`"2.5" → 2.5`. -/
theorem C5_convert_odds_formulas :
    (∀ s q, parseFloatQ s = some q →
      convert_odds_to_decimal ('+' :: s) = some ((q + 100) / 100))
    ∧ (∀ s q, parseFloatQ s = some q → q ≠ 0 →
      convert_odds_to_decimal ('-' :: s) = some ((100 + q) / q))
    ∧ (∀ c s q, c ≠ '+' → c ≠ '-' → parseFloatQ (c :: s) = some q →
      convert_odds_to_decimal (c :: s) = some q)
    ∧ convert_odds_to_decimal "+150".data = some (5 / 2)
    ∧ convert_odds_to_decimal "+100".data = some 2
    ∧ convert_odds_to_decimal "+200".data = some 3
    ∧ convert_odds_to_decimal "-200".data = some (3 / 2)
    ∧ convert_odds_to_decimal "-250".data = some (7 / 5)
    ∧ convert_odds_to_decimal "2.5".data = some (5 / 2) := by
  refine ⟨fun s q h => convert_odds_pos s q h,
          fun s q h hq => convert_odds_neg s q h hq,
          fun c s q h1 h2 h => by rw [convert_odds_other c s h1 h2, h],
          ?_, ?_, ?_, ?_, ?_, ?_⟩
  · rw [show convert_odds_to_decimal "+150".data
        = some (((150 : ℚ) + 100) / 100) from rfl]
    norm_num
  · rw [show convert_odds_to_decimal "+100".data
        = some (((100 : ℚ) + 100) / 100) from rfl]
    norm_num
  · rw [show convert_odds_to_decimal "+200".data
        = some (((200 : ℚ) + 100) / 100) from rfl]
    norm_num
  · rw [show convert_odds_to_decimal "-200".data
        = some ((100 + (200 : ℚ)) / 200) from rfl]
    norm_num
  · rw [show convert_odds_to_decimal "-250".data
        = some ((100 + (250 : ℚ)) / 250) from rfl]
    norm_num
  · rw [show convert_odds_to_decimal "2.5".data
        = some ((2 : ℚ) + 5 / 10 ^ 1) from rfl]
    norm_num

/-- Claim C5 witness: the positive-odds formula applied at the concrete
text `"+130"`. -/
theorem C5_witness :
    convert_odds_to_decimal ('+' :: "130".data) = some (((130 : ℚ) + 100) / 100) :=
  C5_convert_odds_formulas.1 "130".data 130 rfl

/-- Claim C8 counterexample: the conversion function accepts the bare
numeric text `"0.5"` and returns `0.5`, which is not greater than
`1.0`, so the claimed invariant fails as stated. -/
theorem C8_counterexample :
    ¬ (∀ (t : List Char) (r : ℚ), convert_odds_to_decimal t = some r → 1 < r) := by
  intro h
  have h05 : convert_odds_to_decimal "0.5".data = some ((0 : ℚ) + 5 / 10 ^ 1) := rfl
  have := h "0.5".data _ h05
  norm_num at this

/-- Claim C8 (amended): for positive and negative American odds texts
with positive magnitude the returned multiplier exceeds `1.0`; a bare
numeric text is returned as its own value, so it exceeds `1.0` exactly
when the displayed value does. -/
theorem C8_amended_multiplier_above_one :
    (∀ s q, parseFloatQ s = some q → 0 < q →
      ∃ r, convert_odds_to_decimal ('+' :: s) = some r ∧ 1 < r)
    ∧ (∀ s q, parseFloatQ s = some q → 0 < q →
      ∃ r, convert_odds_to_decimal ('-' :: s) = some r ∧ 1 < r)
    ∧ (∀ c s q, c ≠ '+' → c ≠ '-' → parseFloatQ (c :: s) = some q →
      convert_odds_to_decimal (c :: s) = some q) := by
  refine ⟨?_, ?_, fun c s q h1 h2 h => by rw [convert_odds_other c s h1 h2, h]⟩
  · intro s q h hq
    refine ⟨(q + 100) / 100, convert_odds_pos s q h, ?_⟩
    rw [lt_div_iff₀ (by norm_num : (0 : ℚ) < 100)]
    linarith
  · intro s q h hq
    refine ⟨(100 + q) / q, convert_odds_neg s q h (ne_of_gt hq), ?_⟩
    rw [lt_div_iff₀ hq]
    linarith

/-- Claim C8 witness: the amended positive-odds bound applied at the
concrete text `"+250"`. -/
theorem C8_witness :
    ∃ r, convert_odds_to_decimal ('+' :: "250".data) = some r ∧ 1 < r :=
  C8_amended_multiplier_above_one.1 "250".data 250 rfl (by norm_num)

/-- Claim C1: the safe-odds filter of `execute_betting_strategy`
compares the DECIMAL multiplier `odds_decimal` against the bounds
`-250` and `200`, so the proposal displaying `"+500"` — whose American
odds `+500` lie outside `[-250, +200]` — converts to `6.0` and is
retained as a parlay candidate, contradicting the claimed filter. -/
theorem C1_plus500_retained :
    safeGames [["+500".data]] = [("+500".data, 6)]
    ∧ convert_odds_to_decimal "+500".data = some 6
    ∧ ((-250 : ℚ) ≤ 6 ∧ (6 : ℚ) ≤ 200)
    ∧ ¬ ((-250 : ℚ) ≤ 500 ∧ (500 : ℚ) ≤ 200) := by
  have h6 : convert_odds_to_decimal "+500".data = some 6 := by
    rw [show convert_odds_to_decimal "+500".data
        = some (((500 : ℚ) + 100) / 100) from rfl]
    norm_num
  refine ⟨?_, h6, by norm_num, by norm_num⟩
  simp [safeGames, processGame, h6]
  norm_num

/-- Claim C6 counterexample: with every environment variable absent,
`FliffAutomator` construction still succeeds — the login credential
pair is not validated at construction, and the two `page.fill` calls of
`login` read the (absent) credentials at the point of use. -/
theorem C6_counterexample :
    (¬ ∀ env : Env, pyFalsy env.fliff_username = true →
        ∃ msg, FliffAutomator.init env = Except.error msg)
    ∧ FliffAutomator.init emptyEnv =
        Except.ok { base_url := "https://fliff.com",
                    latitude := (40.7128 : ℚ), longitude := (-74.0060 : ℚ) }
    ∧ loginFillValues emptyEnv = [none, none] := by
  refine ⟨?_, rfl, rfl⟩
  intro h
  obtain ⟨msg, hm⟩ := h emptyEnv rfl
  simp [FliffAutomator.init] at hm

/-- Claim C6 (amended): the control-plane and messaging constructors
fail fast with descriptive errors on absent (falsy) required values,
checking the token before the repository/channel id; `FliffAutomator`
construction never fails for absent credentials, which are first read
at the point of use inside `login`. -/
theorem C6_amended_fail_fast (env : Env) :
    (pyFalsy env.github_token = true →
      GitHubAPIManager.init env =
        Except.error "GITHUB_TOKEN environment variable is required")
    ∧ (pyFalsy env.github_token = false → pyFalsy env.github_repository = true →
      GitHubAPIManager.init env =
        Except.error "GITHUB_REPOSITORY environment variable is required")
    ∧ (pyFalsy env.telegram_bot_token = true →
      TelegramNotifier.init env =
        Except.error "TELEGRAM_BOT_TOKEN environment variable is required")
    ∧ (pyFalsy env.telegram_bot_token = false → pyFalsy env.telegram_chat_id = true →
      TelegramNotifier.init env =
        Except.error "TELEGRAM_CHAT_ID environment variable is required")
    ∧ (∃ a, FliffAutomator.init env = Except.ok a)
    ∧ loginFillValues env = [env.fliff_username, env.fliff_password] := by
  refine ⟨?_, ?_, ?_, ?_, ⟨_, rfl⟩, rfl⟩
  · intro h; simp [GitHubAPIManager.init, h]
  · intro h1 h2; simp [GitHubAPIManager.init, h1, h2]
  · intro h; simp [TelegramNotifier.init, h]
  · intro h1 h2; simp [TelegramNotifier.init, h1, h2]

/-- Claim C6 witness: the fail-fast branches applied to the empty
environment. -/
theorem C6_witness :
    GitHubAPIManager.init emptyEnv =
      Except.error "GITHUB_TOKEN environment variable is required"
    ∧ TelegramNotifier.init emptyEnv =
      Except.error "TELEGRAM_BOT_TOKEN environment variable is required" :=
  ⟨(C6_amended_fail_fast emptyEnv).1 rfl,
   (C6_amended_fail_fast emptyEnv).2.2.1 rfl⟩

/-- Claim C10: `disable_workflow` is a total boolean: it returns `true`
exactly when the workflow listing succeeds, a workflow with path
`.github/workflows/main.yml` is found, and the disable request
succeeds; it returns `false` (rather than raising) when the listing
fails or the target workflow is missing. -/
theorem C10_disable_workflow_boolean (world : GitHubWorld) :
    (disable_workflow world = true ↔
      ∃ wfs wf, world.listWorkflows = Except.ok wfs ∧
        wfs.find? isTargetWorkflow = some wf ∧
        world.disableCall wf.id = Except.ok ())
    ∧ (world.listWorkflows = Except.error () → disable_workflow world = false)
    ∧ (∀ wfs, world.listWorkflows = Except.ok wfs →
        wfs.find? isTargetWorkflow = none → disable_workflow world = false) := by
  refine ⟨⟨?_, ?_⟩, ?_, ?_⟩
  · intro h
    cases hl : world.listWorkflows with
    | error e => simp [disable_workflow, hl] at h
    | ok wfs =>
      cases hf : wfs.find? isTargetWorkflow with
      | none => simp [disable_workflow, hl, hf] at h
      | some wf =>
        cases hd : world.disableCall wf.id with
        | error e => simp [disable_workflow, hl, hf, hd] at h
        | ok u => exact ⟨wfs, wf, rfl, hf, by cases u; exact hd⟩
  · rintro ⟨wfs, wf, hl, hf, hd⟩
    simp [disable_workflow, hl, hf, hd]
  · intro hl
    simp [disable_workflow, hl]
  · intro wfs hl hf
    simp [disable_workflow, hl, hf]

/-- Claim C10 witness: a world whose workflow listing fails yields
`false`. -/
theorem C10_witness :
    disable_workflow
      { listWorkflows := Except.error (), disableCall := fun _ => Except.ok () } = false :=
  (C10_disable_workflow_boolean
    { listWorkflows := Except.error (), disableCall := fun _ => Except.ok () }).2.1 rfl

/-- Claim C2: in scenario 3 (balance `5.00`, no blocking wagers,
strategy succeeds, payout `75.00`) the real `run` does take exactly one
bet-slip screenshot and re-read the balance, but then its attribute
lookup `self.automator.get_current_payout()` fails — `FliffAutomator`
defines only `_get_current_payout` — so the bet-confirmation path
raises, no bet-confirmation notification is ever sent, and the run ends
in the error-notification path instead.  (The subsequent
`send_bet_confirmation` call would also fail: the class has no
`potential_potential_payout` parameter.) -/
theorem C2_bet_confirmation_path_raises :
    orchestratorRun scenario3 =
      [Event.statusStarted, Event.loginEv, Event.getBalanceEv, Event.checkWagersEv,
       Event.strategyEv 50 100,
       Event.betScreenshotEv "screenshots/bet_slip_1.png", Event.getBalanceEv,
       Event.errorScreenshotEv "screenshots/error_1.png",
       Event.errorNotificationEv
         (PyErr.attributeError "FliffAutomator" "get_current_payout")
         "screenshots/error_1.png",
       Event.closeEv, Event.removeFileEv "screenshots/error_1.png"]
    ∧ (orchestratorRun scenario3).countP
        (fun e => match e with | Event.betScreenshotEv _ => true | _ => false) = 1
    ∧ (orchestratorRun scenario3).all
        (fun e => match e with | Event.betConfirmationEv _ _ _ => false | _ => true) = true
    ∧ fliffAutomatorAttrs.contains "get_current_payout" = false
    ∧ sendBetConfirmationParams.contains "potential_potential_payout" = false := by
  have hattr : fliffAutomatorAttrs.contains "get_current_payout" = false := by decide
  have hparam : sendBetConfirmationParams.contains "potential_potential_payout" = false := by
    decide
  have hne : ("screenshots/error_1.png" : String) ≠ "" := by decide
  have hmem : ("get_current_payout" : String) ∉ fliffAutomatorAttrs := by decide
  have hkw : ¬ ∀ x ∈ betConfirmationKwargs, x ∈ sendBetConfirmationParams := by decide
  have h1 : ¬ (goal_balance ≤ (5 : ℚ)) := by norm_num [goal_balance]
  have h2 : ¬ ((5 : ℚ) < min_bet_threshold) := by norm_num [min_bet_threshold]
  have h3 : min_bet_threshold ≤ (5 : ℚ) := by norm_num [min_bet_threshold]
  have hrun : orchestratorRun scenario3 =
      [Event.statusStarted, Event.loginEv, Event.getBalanceEv, Event.checkWagersEv,
       Event.strategyEv 50 100,
       Event.betScreenshotEv "screenshots/bet_slip_1.png", Event.getBalanceEv,
       Event.errorScreenshotEv "screenshots/error_1.png",
       Event.errorNotificationEv
         (PyErr.attributeError "FliffAutomator" "get_current_payout")
         "screenshots/error_1.png",
       Event.closeEv, Event.removeFileEv "screenshots/error_1.png"] := by
    simp [orchestratorRun, tryBlock, phase2, betBranch, scenario3, h1, h2, h3,
          hattr, hne, hmem, hkw, min_payout_threshold, max_payout_threshold]
  refine ⟨hrun, ?_, ?_, hattr, hparam⟩
  · rw [hrun]; rfl
  · rw [hrun]; rfl

lemma retryAttempts_first_ok {ε α : Type} (op : ℕ → Except ε α) (delay i rem : ℕ)
    (a : α) (h : op i = Except.ok a) :
    retryAttempts op delay i (rem + 1) = (some (Except.ok a), 1, []) := by
  simp [retryAttempts, h]

lemma retryAttempts_all_fail {ε α : Type} (op : ℕ → Except ε α) (delay : ℕ) :
    ∀ (rem : ℕ), 1 ≤ rem → ∀ i, (∀ j, j < rem → ∃ e, op (i + j) = Except.error e) →
      ∃ e, op (i + rem - 1) = Except.error e ∧
        retryAttempts op delay i rem =
          (some (Except.error e), rem,
           (List.range (rem - 1)).map (fun j => delay * 2 ^ (i + j))) := by
  intro rem
  induction rem with
  | zero => intro h; omega
  | succ r ih =>
    intro _ i hall
    obtain ⟨e0, he0⟩ := hall 0 (by omega)
    rw [Nat.add_zero] at he0
    by_cases hr : r = 0
    · subst hr
      refine ⟨e0, by simpa using he0, ?_⟩
      simp [retryAttempts, he0]
    · obtain ⟨e, he, hrec⟩ := ih (by omega) (i + 1) (fun j hj => by
        obtain ⟨e', he'⟩ := hall (j + 1) (by omega)
        exact ⟨e', by rw [show i + 1 + j = i + (j + 1) from by omega]; exact he'⟩)
      refine ⟨e, ?_, ?_⟩
      · rw [show i + (r + 1) - 1 = i + 1 + r - 1 from by omega]
        exact he
      · obtain ⟨s, rfl⟩ := Nat.exists_eq_succ_of_ne_zero hr
        rw [show retryAttempts op delay i (s + 1 + 1)
            = ((retryAttempts op delay (i + 1) (s + 1)).1,
               (retryAttempts op delay (i + 1) (s + 1)).2.1 + 1,
               delay * 2 ^ i :: (retryAttempts op delay (i + 1) (s + 1)).2.2) from by
          simp [retryAttempts, he0]]
        rw [hrec]
        refine congrArg _ (congrArg _ ?_)
        rw [show s + 1 + 1 - 1 = s + 1 from rfl, List.range_succ_eq_map,
            List.map_cons, List.map_map]
        simp only [Nat.add_zero, Nat.add_sub_cancel]
        refine congrArg _ ?_
        refine List.map_congr_left (fun a _ => ?_)
        rw [show i + 1 + a = i + (a + 1) from by omega]
        rfl

/-- Claim C4: the retry executor returns the result of the first
successful attempt immediately (one call when attempt 1 succeeds, two
calls when attempt 1 fails and attempt 2 succeeds, with one back-off
sleep of `delay * 2 ^ 0`); when every attempt fails it makes exactly
`max_retries` calls, re-raises the final attempt's error unchanged, and
sleeps `delay * 2 ^ attempt` between consecutive attempts. -/
theorem C4_retry_semantics {ε α : Type} (op : ℕ → Except ε α) (max_retries delay : ℕ)
    (hmax : 1 ≤ max_retries) :
    (∀ a, op 0 = Except.ok a →
      retry_operation op max_retries delay = (some (Except.ok a), 1, []))
    ∧ (∀ e a, 2 ≤ max_retries → op 0 = Except.error e → op 1 = Except.ok a →
      retry_operation op max_retries delay = (some (Except.ok a), 2, [delay * 2 ^ 0]))
    ∧ ((∀ j, j < max_retries → ∃ e, op j = Except.error e) →
      ∃ e, op (max_retries - 1) = Except.error e ∧
        retry_operation op max_retries delay =
          (some (Except.error e), max_retries,
           (List.range (max_retries - 1)).map (fun j => delay * 2 ^ j))) := by
  refine ⟨?_, ?_, ?_⟩
  · intro a h
    obtain ⟨m, hm⟩ : ∃ m, max_retries = m + 1 := ⟨max_retries - 1, by omega⟩
    subst hm
    exact retryAttempts_first_ok op delay 0 m a h
  · intro e a h2 h0 h1
    obtain ⟨m, hm⟩ : ∃ m, max_retries = m + 2 := ⟨max_retries - 2, by omega⟩
    subst hm
    simp [retry_operation, retryAttempts, h0, h1]
  · intro hall
    obtain ⟨e, he, hr⟩ :=
      retryAttempts_all_fail op delay max_retries hmax 0
        (fun j hj => by simpa using hall j hj)
    exact ⟨e, by simpa using he, by simpa [retry_operation] using hr⟩

/-- Claim C4 witness: the three behaviours at `max_retries = 3`,
`delay = 2`: one call on immediate success; two calls and a `2`-second
sleep on fail-then-succeed; three calls, sleeps `[2, 4]` and the final
error `2` re-raised when every attempt fails. -/
theorem C4_witness :
    retry_operation (fun _ => (Except.ok 5 : Except ℕ ℕ)) 3 2 = (some (Except.ok 5), 1, [])
    ∧ retry_operation (fun i => if i = 0 then (Except.error 0 : Except ℕ ℕ) else Except.ok 7) 3 2
        = (some (Except.ok 7), 2, [2])
    ∧ retry_operation (fun i => (Except.error i : Except ℕ ℕ)) 3 2
        = (some (Except.error 2), 3, [2, 4]) := by
  refine ⟨(C4_retry_semantics _ 3 2 (by norm_num)).1 5 rfl, ?_, ?_⟩
  · have h := (C4_retry_semantics
      (fun i => if i = 0 then (Except.error 0 : Except ℕ ℕ) else Except.ok 7) 3 2
      (by norm_num)).2.1 0 7 (by norm_num) rfl rfl
    simpa using h
  · obtain ⟨e, he, hr⟩ := (C4_retry_semantics
      (fun i => (Except.error i : Except ℕ ℕ)) 3 2 (by norm_num)).2.2
      (fun j _ => ⟨j, rfl⟩)
    simp only [show (3 : ℕ) - 1 = 2 from rfl] at he hr
    have he2 : e = 2 := by simpa using he.symm
    subst he2
    rw [hr]
    simp [List.range_succ]

lemma startsWithList_append (n : List Char) :
    ∀ (h t : List Char), startsWithList n h = true → startsWithList n (h ++ t) = true := by
  induction n with
  | nil => intro h t _; rfl
  | cons a as ih =>
    intro h t hw
    cases h with
    | nil => simp [startsWithList] at hw
    | cons b bs =>
      simp only [startsWithList, Bool.and_eq_true, decide_eq_true_eq] at hw
      simp only [List.cons_append, startsWithList, Bool.and_eq_true, decide_eq_true_eq]
      exact ⟨hw.1, ih bs t hw.2⟩

lemma subList_append_left (n : List Char) :
    ∀ (h t : List Char), subList n h = true → subList n (h ++ t) = true := by
  intro h
  induction h with
  | nil =>
    intro t hw
    have hn : n = [] := by
      cases n with
      | nil => rfl
      | cons c cs => simp [subList] at hw
    subst hn
    cases t with
    | nil => rfl
    | cons c cs => rfl
  | cons c cs ih =>
    intro t hw
    simp only [subList, Bool.or_eq_true] at hw
    rcases hw with h1 | h2
    · simp only [List.cons_append, subList, Bool.or_eq_true]
      exact Or.inl (startsWithList_append n (c :: cs) t h1)
    · simp only [List.cons_append, subList, Bool.or_eq_true]
      exact Or.inr (ih t h2)

lemma firstRun_append (p : Char → Bool) :
    ∀ (l₁ l₂ : List Char), l₁.all (fun c => !p c) = true →
      firstRun p (l₁ ++ l₂) = firstRun p l₂ := by
  intro l₁
  induction l₁ with
  | nil => intro l₂ _; rfl
  | cons c cs ih =>
    intro l₂ hall
    simp only [List.all_cons, Bool.and_eq_true, Bool.not_eq_true'] at hall
    simp [firstRun, hall.1, ih l₂ hall.2]

lemma exists_blocking_cons {s : List Char} {rest : List (List Char)}
    (hsb : slipBlocking s = false) :
    (∃ x ∈ rest, slipBlocking x = true) ↔ (∃ x ∈ s :: rest, slipBlocking x = true) := by
  constructor
  · rintro ⟨x, hx, hbx⟩
    exact ⟨x, List.mem_cons_of_mem s hx, hbx⟩
  · rintro ⟨x, hx, hbx⟩
    rcases List.mem_cons.mp hx with rfl | hx'
    · rw [hsb] at hbx; cases hbx
    · exact ⟨x, hx', hbx⟩

lemma check_open_wagers_ok_iff :
    ∀ (slips : List (List Char)) (b : Bool),
      check_open_wagers slips = Except.ok b →
      (b = true ↔ ∃ s ∈ slips, slipBlocking s = true) := by
  intro slips
  induction slips with
  | nil =>
    intro b h
    simp only [check_open_wagers, Except.ok.injEq] at h
    subst h
    simp
  | cons s rest ih =>
    intro b h
    cases hv : slipPayoutValue s with
    | error e => simp [check_open_wagers, hv] at h
    | ok vo =>
      cases vo with
      | none =>
        have h' : check_open_wagers rest = Except.ok b := by
          simpa [check_open_wagers, hv] using h
        have hsb : slipBlocking s = false := by simp [slipBlocking, hv]
        rw [ih b h']
        exact exists_blocking_cons hsb
      | some v =>
        by_cases hgt : (9 : ℚ) / 5 < v
        · have hb : b = true := by
            have hh : check_open_wagers (s :: rest) = Except.ok true := by
              simp [check_open_wagers, hv, hgt]
            rw [hh] at h
            simpa using h.symm
          subst hb
          have hsb : slipBlocking s = true := by simp [slipBlocking, hv, hgt]
          exact ⟨fun _ => ⟨s, List.mem_cons_self s rest, hsb⟩, fun _ => rfl⟩
        · have h' : check_open_wagers rest = Except.ok b := by
            simpa [check_open_wagers, hv, hgt] using h
          have hsb : slipBlocking s = false := by simp [slipBlocking, hv, hgt]
          rw [ih b h']
          exact exists_blocking_cons hsb

/-- Claim C7: `check_open_wagers` returns `true` exactly when some
enumerated slip contains payout text whose parsed numeric payout
exceeds `1.80` (whenever the function returns rather than raising); a
slip displaying `"$50.00"` is blocking, one displaying `"$1.50"` is
not, and an empty slip list yields `false` rather than an error. -/
theorem C7_check_open_wagers_spec (slips : List (List Char)) (b : Bool)
    (h : check_open_wagers slips = Except.ok b) :
    (b = true ↔ ∃ s ∈ slips, slipBlocking s = true)
    ∧ check_open_wagers ([] : List (List Char)) = Except.ok false
    ∧ check_open_wagers ["Potential payout: $50.00".data] = Except.ok true
    ∧ check_open_wagers ["Potential payout: $1.50".data] = Except.ok false := by
  refine ⟨check_open_wagers_ok_iff slips b h, rfl, ?_, ?_⟩
  · have hv : slipPayoutValue "Potential payout: $50.00".data
        = Except.ok (some (50 : ℚ)) := rfl
    norm_num [check_open_wagers, hv]
  · have hv : slipPayoutValue "Potential payout: $1.50".data
        = Except.ok (some (1 : ℚ)) := rfl
    norm_num [check_open_wagers, hv]

/-- Claim C7 witness: the theorem applied at the empty slip list, and
its concrete blocking example. -/
theorem C7_witness :
    check_open_wagers ["Potential payout: $50.00".data] = Except.ok true :=
  (C7_check_open_wagers_spec [] false rfl).2.2.1

/-- Claim C9: the `[\d,]+` extraction of `check_open_wagers` matches
only digits and commas, so the fractional part of a displayed payout is
discarded before comparing with `1.80`: every slip displaying
`$0.⟨frac⟩` or `$1.⟨frac⟩` parses to a value at most `1` and is
classified as not blocking — in particular `"$1.99"` parses to `1` and
does not block, although `1.99 > 1.80`. -/
theorem C9_fraction_truncated (d : Char) (ds : List Char) (hd : d = '0' ∨ d = '1') :
    (∃ v : ℚ, slipPayoutValue ("Potential payout: $".data ++ d :: '.' :: ds)
        = Except.ok (some v) ∧ v ≤ 1)
    ∧ check_open_wagers [("Potential payout: $".data ++ d :: '.' :: ds)]
        = Except.ok false
    ∧ slipPayoutValue "Potential payout: $1.99".data = Except.ok (some 1)
    ∧ check_open_wagers ["Potential payout: $1.99".data] = Except.ok false
    ∧ (9 : ℚ) / 5 < 199 / 100 := by
  have hrun : firstRun isDigitComma ("Potential payout: $".data ++ d :: '.' :: ds)
      = some [d] := by
    rcases hd with rfl | rfl <;> rfl
  have hval : digitsVal [d] ≤ 1 := by rcases hd with rfl | rfl <;> simp [digitsVal]
  have hslip : slipPayoutValue ("Potential payout: $".data ++ d :: '.' :: ds)
      = Except.ok (some ((digitsVal [d] : ℕ) : ℚ)) := by
    rcases hd with rfl | rfl <;> rfl
  have hle : ¬ ((9 : ℚ) / 5 < ((digitsVal [d] : ℕ) : ℚ)) := by
    have h1 : ((digitsVal [d] : ℕ) : ℚ) ≤ 1 := by exact_mod_cast hval
    intro hcon
    linarith
  refine ⟨⟨((digitsVal [d] : ℕ) : ℚ), hslip, by exact_mod_cast hval⟩, ?_, rfl, ?_, by norm_num⟩
  · rw [check_open_wagers, hslip]
    show (if (9 : ℚ) / 5 < ((digitsVal [d] : ℕ) : ℚ) then Except.ok true
          else check_open_wagers []) = Except.ok false
    rw [if_neg hle]
    rfl
  · have hv : slipPayoutValue "Potential payout: $1.99".data
        = Except.ok (some (1 : ℚ)) := rfl
    norm_num [check_open_wagers, hv]

/-- Claim C9 witness: the truncation applied at the concrete slip text
`"Potential payout: $1.99"` (built as the prefix, `'1'`, `'.'` and the
fraction digits). -/
theorem C9_witness :
    check_open_wagers [("Potential payout: $".data ++ '1' :: '.' :: "99".data)]
      = Except.ok false :=
  (C9_fraction_truncated '1' "99".data (Or.inr rfl)).2.1

lemma parlayLoop_break {α : Type} (payout : ℕ → ℚ) (minP maxP : ℚ)
    (cs : List α) (cur : ℚ) (n : ℕ) (h : maxP ≤ cur) :
    parlayLoop payout minP maxP cs cur n = (decide (minP ≤ cur), cur, []) := by
  cases cs with
  | nil => rfl
  | cons p rest => simp [parlayLoop, h]

lemma parlayLoop_fst {α : Type} (payout : ℕ → ℚ) (minP maxP : ℚ) :
    ∀ (cs : List α) (cur : ℚ) (n : ℕ),
      (parlayLoop payout minP maxP cs cur n).1
        = decide (minP ≤ (parlayLoop payout minP maxP cs cur n).2.1) := by
  intro cs
  induction cs with
  | nil => intro cur n; rfl
  | cons p rest ih =>
    intro cur n
    by_cases h1 : maxP ≤ cur
    · simp [parlayLoop, h1]
    · by_cases h2 : minP ≤ payout (n + 1) ∧ payout (n + 1) ≤ maxP
      · simp [parlayLoop, h1, h2, h2.1]
      · simp only [parlayLoop, if_neg h1, if_neg h2]
        exact ih (payout (n + 1)) (n + 1)

lemma parlayLoop_sel_take {α : Type} (payout : ℕ → ℚ) (minP maxP : ℚ) :
    ∀ (cs : List α) (cur : ℚ) (n : ℕ),
      (parlayLoop payout minP maxP cs cur n).2.2
        = cs.take (parlayLoop payout minP maxP cs cur n).2.2.length := by
  intro cs
  induction cs with
  | nil => intro cur n; rfl
  | cons p rest ih =>
    intro cur n
    by_cases h1 : maxP ≤ cur
    · simp [parlayLoop, h1]
    · by_cases h2 : minP ≤ payout (n + 1) ∧ payout (n + 1) ≤ maxP
      · simp [parlayLoop, h1, h2]
      · simp only [parlayLoop, if_neg h1, if_neg h2, List.length_cons, List.take_succ_cons]
        exact congrArg _ (ih (payout (n + 1)) (n + 1))

lemma parlayLoop_reach {α : Type} (payout : ℕ → ℚ) (minP maxP : ℚ)
    (hmm : minP ≤ maxP) (k : ℕ) (hk : minP ≤ payout k) :
    ∀ (cs : List α) (cur : ℚ) (n : ℕ), n < k → k ≤ n + cs.length → cur < maxP →
      (∀ j, n < j → j < k → payout j < minP) →
      parlayLoop payout minP maxP cs cur n = (true, payout k, cs.take (k - n)) := by
  intro cs
  induction cs with
  | nil =>
    intro cur n h1 h2 _ _
    simp at h2
    omega
  | cons p rest ih =>
    intro cur n hnk hkL hcur hprev
    have h1 : ¬ maxP ≤ cur := not_le.mpr hcur
    by_cases hk1 : k = n + 1
    · subst hk1
      have hklow : minP ≤ payout (n + 1) := hk
      by_cases hc : payout (n + 1) ≤ maxP
      · have hband : minP ≤ payout (n + 1) ∧ payout (n + 1) ≤ maxP := ⟨hklow, hc⟩
        simp [parlayLoop, h1, hband]
      · have hc' : maxP ≤ payout (n + 1) := le_of_lt (not_le.mp hc)
        have hband : ¬ (minP ≤ payout (n + 1) ∧ payout (n + 1) ≤ maxP) :=
          fun hh => hc hh.2
        simp only [parlayLoop, if_neg h1, if_neg hband,
                   parlayLoop_break payout minP maxP rest (payout (n + 1)) (n + 1) hc']
        simp [hklow]
    · have hn1k : n + 1 < k := by omega
      have hlow : payout (n + 1) < minP := hprev (n + 1) (by omega) hn1k
      have hband : ¬ (minP ≤ payout (n + 1) ∧ payout (n + 1) ≤ maxP) :=
        fun hh => absurd hh.1 (not_le.mpr hlow)
      have hrec := ih (payout (n + 1)) (n + 1) hn1k
        (by simp only [List.length_cons] at hkL; omega)
        (lt_of_lt_of_le hlow hmm)
        (fun j hj1 hj2 => hprev j (by omega) hj2)
      simp only [parlayLoop, if_neg h1, if_neg hband, hrec]
      have htake : k - n = (k - (n + 1)) + 1 := by omega
      rw [htake, List.take_succ_cons]

/-- Claim C3: the parlay loop of `execute_betting_strategy` returns
`false` (not an exception) when there are no games or no safe-odds
candidates; it adds legs greedily in discovery order (the selections
are always an initial segment of the candidate list); if the re-read
payouts stay below `min_payout` until the k-th addition first reaches
`min_payout` (entering the band, or overshooting `max_payout`), the
loop stops after exactly `k` legs with result `true` and final payout
`payout k`; and whenever candidates exist the call returns `true`
exactly when the final payout is at least `min_payout`. -/
theorem C3_execute_betting_strategy_spec (games : List (List (List Char)))
    (payout : ℕ → ℚ) (min_payout max_payout : ℚ)
    (hband : min_payout < max_payout) :
    (games = [] → execute_betting_strategy games payout min_payout max_payout = false)
    ∧ (safeGames games = [] →
        execute_betting_strategy games payout min_payout max_payout = false)
    ∧ ((parlayLoop payout min_payout max_payout (safeGames games) 1 0).2.2
        = (safeGames games).take
            (parlayLoop payout min_payout max_payout (safeGames games) 1 0).2.2.length)
    ∧ (∀ k, 0 < k → k ≤ (safeGames games).length → (1 : ℚ) < max_payout →
        (∀ j, 0 < j → j < k → payout j < min_payout) → min_payout ≤ payout k →
        parlayLoop payout min_payout max_payout (safeGames games) 1 0
          = (true, payout k, (safeGames games).take k)
        ∧ (games ≠ [] →
            execute_betting_strategy games payout min_payout max_payout = true))
    ∧ (games ≠ [] → safeGames games ≠ [] →
        (execute_betting_strategy games payout min_payout max_payout = true
          ↔ min_payout ≤
              (parlayLoop payout min_payout max_payout (safeGames games) 1 0).2.1)) := by
  refine ⟨?_, ?_, parlayLoop_sel_take payout min_payout max_payout (safeGames games) 1 0,
          ?_, ?_⟩
  · intro h
    subst h
    rfl
  · intro h
    simp [execute_betting_strategy, h]
  · intro k hk0 hkL h1max hprev hk
    have hr := parlayLoop_reach payout min_payout max_payout (le_of_lt hband) k hk
      (safeGames games) 1 0 hk0 (by simpa using hkL) h1max
      (fun j hj1 hj2 => hprev j hj1 hj2)
    rw [Nat.sub_zero] at hr
    refine ⟨hr, fun hgne => ?_⟩
    have hsne : safeGames games ≠ [] := by
      intro hh
      rw [hh] at hkL
      simp at hkL
      omega
    simp [execute_betting_strategy, hgne, hsne, hr]
  · intro hg hs
    have hex : execute_betting_strategy games payout min_payout max_payout
        = (parlayLoop payout min_payout max_payout (safeGames games) 1 0).1 := by
      simp [execute_betting_strategy, hg, hs]
    rw [hex, parlayLoop_fst payout min_payout max_payout (safeGames games) 1 0]
    simp

/-- Claim C3 witness: the empty-games case of the specification at the
orchestrator's band `[50, 100]`. -/
theorem C3_witness :
    execute_betting_strategy [] (fun _ => (0 : ℚ)) 50 100 = false :=
  (C3_execute_betting_strategy_spec [] (fun _ => 0) 50 100 (by norm_num)).1 rfl

end AutoFliff
